import Mathlib

/-!
Verification of the payjoin receive pipeline FFI wrapper (`src/receive.rs`).

The wrapper holds each typestate value in a `Mutex<Option<T>>`; a consuming
stage method takes the value out (`mem::replace(_, None)`) and a second call
observes `None`.  We embed each wrapper method as a function on the handle
state `Option σ`, returning an `Outcome` (success, typed error, or panic)
together with the state the handle is left in.  The validation checks that the
wrapper delegates to the upstream payjoin crate are modelled from the spec;
such definitions carry a `Modelled from the spec:` doc comment.
-/

namespace PayjoinFfi

/-- The error enum variants used by `receive.rs`
(`PayjoinError::{RequestError, UnexpectedError, ServerError, ReceiveError, SelectionError}`). -/
inductive PayjoinError where
  | RequestError (message : String)
  | UnexpectedError (message : String)
  | ServerError (message : String)
  | ReceiveError (message : String)
  | SelectionError
deriving DecidableEq

/-- Result of calling a wrapper method: success, a typed `PayjoinError`,
or a Rust panic (with the panic message). -/
inductive Outcome (α : Type) where
  | ok : α → Outcome α
  | err : PayjoinError → Outcome α
  | panicked : String → Outcome α
deriving DecidableEq

/-- Whether an `Outcome` is a success. -/
def Outcome.isOk {α : Type} : Outcome α → Bool
  | Outcome.ok _ => true
  | _ => false

/-- The message of Rust's `Option::unwrap` panic on `None`. -/
def unwrapMsg : String := "called Option::unwrap on a None value"

/-- A transaction outpoint, as exposed over the FFI boundary
(`OutPoint { txid: String, vout: u32 }`). -/
structure OutPoint where
  txid : String
  vout : Nat
deriving DecidableEq

/-- A transaction output: value in satoshis plus locking script (byte list). -/
structure TxOut where
  value : Nat
  script_pubkey : List Nat
deriving DecidableEq

/-- A transaction input of the sender's original transaction. -/
structure TxIn where
  previous_output : OutPoint
  script_sig : List Nat
  sequence_no : Nat
deriving DecidableEq

/-- The sender's original transaction. -/
structure Transaction where
  version : Nat
  input : List TxIn
  output : List TxOut
  lock_time : Nat
deriving DecidableEq

/-- A partially signed transaction, treated as an opaque wrapper around the
unsigned transaction it carries. -/
structure PartiallySignedTransaction where
  tx : Transaction
deriving DecidableEq

/-- The BIP78 parameters carried by the request query string.
Modelled from the spec: the query carries `maxadditionalfeecontribution`
(satoshis) and `additionalfeeoutputindex` (zero-based output index). -/
structure Params where
  maxadditionalfeecontribution : Option Nat
  additionalfeeoutputindex : Option Nat
  disableoutputsubstitution : Bool
deriving DecidableEq

/-- `Headers` from `receive.rs`: a map from header name to value,
embedded as an association list (the two keys inserted are distinct). -/
structure Headers where
  map : List (String × String)
deriving DecidableEq

/-- `Headers::from_vec(body)`: inserts `content-type: text/plain` and
`content-length: body.len().to_string()` into a fresh map. -/
def Headers.from_vec (body : List Nat) : Headers :=
  ⟨[("content-type", "text/plain"), ("content-length", toString body.length)]⟩

/-- `Headers::get_header(key)`: lookup in the map. -/
def Headers.get_header (h : Headers) (key : String) : Option String :=
  h.map.lookup key

/-! ### Byte-level codecs

Modelled from the spec: the request body is the base64 encoding of a PSBT; the
PSBT carries the unsigned original transaction in its global map and each
input's `witness_utxo` (previous output) in that input's map.  The spec treats
the codec as an external collaborator; we embed the standard encodings so that
the literal test vector can be run through the pipeline. -/

/-- Value of one base64 alphabet character, given as its ASCII byte. -/
def b64Val (n : Nat) : Option Nat :=
  if 65 ≤ n ∧ n ≤ 90 then some (n - 65)
  else if 97 ≤ n ∧ n ≤ 122 then some (n - 71)
  else if 48 ≤ n ∧ n ≤ 57 then some (n + 4)
  else if n = 43 then some 62
  else if n = 47 then some 63
  else none

/-- Standard base64 decoding (with `=` padding, ASCII byte 61) of a byte list. -/
def base64Decode : List Nat → Option (List Nat)
  | [] => some []
  | c1 :: c2 :: c3 :: c4 :: rest =>
    match b64Val c1, b64Val c2 with
    | some v1, some v2 =>
      if c3 = 61 then
        if c4 = 61 ∧ rest = [] then some [v1 * 4 + v2 / 16] else none
      else
        match b64Val c3 with
        | some v3 =>
          if c4 = 61 then
            if rest = [] then some [v1 * 4 + v2 / 16, (v2 % 16) * 16 + v3 / 4]
            else none
          else
            match b64Val c4, base64Decode rest with
            | some v4, some tail =>
              some ((v1 * 4 + v2 / 16) :: ((v2 % 16) * 16 + v3 / 4) ::
                ((v3 % 4) * 64 + v4) :: tail)
            | _, _ => none
        | none => none
    | _, _ => none
  | _ => none

/-- Lower-case hex digit for a value below 16. -/
def hexDigit (n : Nat) : Char :=
  if n < 10 then Char.ofNat (48 + n) else Char.ofNat (87 + n)

/-- Render a byte list as a lower-case hex string. -/
def bytesToHex (bs : List Nat) : String :=
  ⟨(bs.map (fun b => [hexDigit (b / 16), hexDigit (b % 16)])).flatten⟩

/-- Read `n` bytes off the front of a byte list. -/
def readBytes (n : Nat) (bs : List Nat) : Option (List Nat × List Nat) :=
  if n ≤ bs.length then some (bs.take n, bs.drop n) else none

/-- Read an `n`-byte little-endian unsigned integer. -/
def readLE : Nat → List Nat → Option (Nat × List Nat)
  | 0, bs => some (0, bs)
  | n + 1, [] => (fun _ => none) n
  | n + 1, b :: bs =>
    match readLE n bs with
    | some (v, rest) => some (b + 256 * v, rest)
    | none => none

/-- Read a Bitcoin variable-length integer. -/
def readVarint (bs : List Nat) : Option (Nat × List Nat) :=
  match bs with
  | [] => none
  | b :: rest =>
    if b < 253 then some (b, rest)
    else if b = 253 then readLE 2 rest
    else if b = 254 then readLE 4 rest
    else readLE 8 rest

/-- Read a transaction outpoint: 32-byte txid (displayed byte-reversed in hex)
followed by a 4-byte little-endian output index. -/
def readOutPoint (bs : List Nat) : Option (OutPoint × List Nat) :=
  match readBytes 32 bs with
  | none => none
  | some (txidBytes, r1) =>
    match readLE 4 r1 with
    | none => none
    | some (vout, r2) => some (⟨bytesToHex txidBytes.reverse, vout⟩, r2)

/-- Read one transaction input (non-witness serialization). -/
def readTxIn (bs : List Nat) : Option (TxIn × List Nat) :=
  match readOutPoint bs with
  | none => none
  | some (op, r1) =>
    match readVarint r1 with
    | none => none
    | some (slen, r2) =>
      match readBytes slen r2 with
      | none => none
      | some (ss, r3) =>
        match readLE 4 r3 with
        | none => none
        | some (seq, r4) => some (⟨op, ss, seq⟩, r4)

/-- Read a counted list of items with a given item reader. -/
def readList {α : Type} (rd : List Nat → Option (α × List Nat)) :
    Nat → List Nat → Option (List α × List Nat)
  | 0, bs => some ([], bs)
  | n + 1, bs =>
    match rd bs with
    | none => none
    | some (x, r1) =>
      match readList rd n r1 with
      | none => none
      | some (xs, r2) => some (x :: xs, r2)

/-- Read one transaction output: 8-byte value plus script. -/
def readTxOut (bs : List Nat) : Option (TxOut × List Nat) :=
  match readLE 8 bs with
  | none => none
  | some (v, r1) =>
    match readVarint r1 with
    | none => none
    | some (slen, r2) =>
      match readBytes slen r2 with
      | none => none
      | some (spk, r3) => some (⟨v, spk⟩, r3)

/-- Parse a complete non-witness transaction, requiring all bytes consumed. -/
def parseTx (bs : List Nat) : Option Transaction :=
  match readLE 4 bs with
  | none => none
  | some (ver, r1) =>
    match readVarint r1 with
    | none => none
    | some (nin, r2) =>
      match readList readTxIn nin r2 with
      | none => none
      | some (ins, r3) =>
        match readVarint r3 with
        | none => none
        | some (nout, r4) =>
          match readList readTxOut nout r4 with
          | none => none
          | some (outs, r5) =>
            match readLE 4 r5 with
            | some (lock, []) => some ⟨ver, ins, outs, lock⟩
            | _ => none

/-- Read one PSBT key-value map (terminated by a zero-length key), with fuel
bounding the number of entries. -/
def readKVs : Nat → List Nat → Option (List (List Nat × List Nat) × List Nat)
  | 0, _ => none
  | fuel + 1, bs =>
    match readVarint bs with
    | none => none
    | some (klen, r1) =>
      if klen = 0 then some ([], r1)
      else
        match readBytes klen r1 with
        | none => none
        | some (k, r2) =>
          match readVarint r2 with
          | none => none
          | some (vlen, r3) =>
            match readBytes vlen r3 with
            | none => none
            | some (v, r4) =>
              match readKVs fuel r4 with
              | none => none
              | some (m, r5) => some ((k, v) :: m, r5)

/-- Look up a key in a PSBT key-value map. -/
def kvLookup (key : List Nat) : List (List Nat × List Nat) → Option (List Nat)
  | [] => none
  | (k, v) :: rest => if k = key then some v else kvLookup key rest

/-- Extract the previous-output script from a `witness_utxo` value
(8-byte amount followed by a length-prefixed script). -/
def witnessUtxoScript (v : List Nat) : Option (List Nat) :=
  match readBytes 8 v with
  | none => none
  | some (_, r1) =>
    match readVarint r1 with
    | none => none
    | some (slen, r2) =>
      match readBytes slen r2 with
      | some (spk, []) => some spk
      | _ => none

/-- Read the per-input PSBT maps and extract each input's previous-output
script from its `witness_utxo` entry (key `[1]`). -/
def readInputScripts : Nat → List Nat → Option (List (List Nat) × List Nat)
  | 0, bs => some ([], bs)
  | n + 1, bs =>
    match readKVs (bs.length + 1) bs with
    | none => none
    | some (m, r1) =>
      match kvLookup [1] m with
      | none => none
      | some wu =>
        match witnessUtxoScript wu with
        | none => none
        | some spk =>
          match readInputScripts n r1 with
          | none => none
          | some (spks, r2) => some (spk :: spks, r2)

/-- Parse a PSBT: magic bytes, global map (whose key `[0]` holds the unsigned
transaction), then one map per input from which the previous-output script is
taken. -/
def parsePsbt (bs : List Nat) : Option (Transaction × List (List Nat)) :=
  match bs with
  | 0x70 :: 0x73 :: 0x62 :: 0x74 :: 0xff :: rest =>
    match readKVs (rest.length + 1) rest with
    | none => none
    | some (g, r1) =>
      match kvLookup [0] g with
      | none => none
      | some txBytes =>
        match parseTx txBytes with
        | none => none
        | some tx =>
          match readInputScripts tx.input.length r1 with
          | none => none
          | some (spks, _) => some (tx, spks)
  | _ => none

/-! ### Query-string parameter parsing and transaction serialization -/

/-- Split a character list at the separator characters of a BIP21/BIP78
parameter string. -/
def splitSeps : List Char → List Char → List (List Char)
  | [], cur => [cur.reverse]
  | c :: rest, cur =>
    if c = '?' ∨ c = '&' then cur.reverse :: splitSeps rest []
    else splitSeps rest (c :: cur)

/-- Split a `key=value` character list at its first `=`. -/
def splitEq : List Char → Option (List Char × List Char)
  | [] => none
  | c :: rest =>
    if c = '=' then some ([], rest)
    else
      match splitEq rest with
      | some (k, v) => some (c :: k, v)
      | none => none

/-- Parse an all-digit character list as a decimal number. -/
def parseDecAux : List Char → Nat → Option Nat
  | [], acc => some acc
  | c :: rest, acc =>
    if 48 ≤ c.toNat ∧ c.toNat ≤ 57 then parseDecAux rest (acc * 10 + (c.toNat - 48))
    else none

/-- Parse a non-empty all-digit character list as a decimal number. -/
def parseDec (cs : List Char) : Option Nat :=
  if cs = [] then none else parseDecAux cs 0

/-- Find a numeric query parameter by key. -/
def findParam (key : List Char) : List (List Char) → Option Nat
  | [] => none
  | part :: rest =>
    match splitEq part with
    | some (k, v) => if k = key then parseDec v else findParam key rest
    | none => findParam key rest

/-- Find a boolean query parameter by key (present with value `true`). -/
def findFlag (key : List Char) : List (List Char) → Bool
  | [] => false
  | part :: rest =>
    match splitEq part with
    | some (k, v) =>
      if k = key ∧ v = "true".toList then true else findFlag key rest
    | none => findFlag key rest

/-- Modelled from the spec: parse the BIP78 parameters out of the query
string (`maxadditionalfeecontribution`, `additionalfeeoutputindex`, and the
output-substitution flag). -/
def parseParams (query : String) : Params :=
  let parts := splitSeps query.toList []
  ⟨findParam "maxadditionalfeecontribution".toList parts,
   findParam "additionalfeeoutputindex".toList parts,
   findFlag "disableoutputsubstitution".toList parts⟩

/-- Write an `n`-byte little-endian unsigned integer. -/
def writeLE : Nat → Nat → List Nat
  | 0, _ => []
  | n + 1, v => v % 256 :: writeLE n (v / 256)

/-- Write a Bitcoin variable-length integer. -/
def writeVarint (n : Nat) : List Nat :=
  if n < 253 then [n]
  else if n < 65536 then 253 :: writeLE 2 n
  else if n < 4294967296 then 254 :: writeLE 4 n
  else 255 :: writeLE 8 n

/-- Value of a lower-case hex digit character. -/
def hexVal (c : Char) : Nat :=
  if c.toNat ≤ 57 then c.toNat - 48 else c.toNat - 87

/-- Parse a hex string (as characters) into bytes. -/
def hexToBytes : List Char → List Nat
  | c1 :: c2 :: rest => (hexVal c1 * 16 + hexVal c2) :: hexToBytes rest
  | _ => []

/-- Consensus (non-witness) serialization of a transaction, as passed to the
broadcast predicate. -/
def txSerialize (t : Transaction) : List Nat :=
  writeLE 4 t.version ++ writeVarint t.input.length ++
  (t.input.map (fun i =>
    (hexToBytes i.previous_output.txid.toList).reverse ++
    writeLE 4 i.previous_output.vout ++
    writeVarint i.script_sig.length ++ i.script_sig ++
    writeLE 4 i.sequence_no)).flatten ++
  writeVarint t.output.length ++
  (t.output.map (fun o =>
    writeLE 8 o.value ++ writeVarint o.script_pubkey.length ++
    o.script_pubkey)).flatten ++
  writeLE 4 t.lock_time

/-! ### Pipeline states and checks delegated to the upstream payjoin crate

The spec's error taxonomy distinguishes a failed predicate (CallbackFailed,
wrapped by the closures in `receive.rs` as `PdkError::Server`) from a failed
check (ValidationRejected). -/

/-- The upstream error type as seen by the wrapper: either a wrapped embedder
callback error (`Error::Server`) or a rejected validation check. -/
inductive PdkError where
  | Server (inner : PayjoinError)
  | Validation (reason : String)
deriving DecidableEq

/-- The message carried by a `PayjoinError`. -/
def PayjoinError.message : PayjoinError → String
  | PayjoinError.RequestError m => m
  | PayjoinError.UnexpectedError m => m
  | PayjoinError.ServerError m => m
  | PayjoinError.ReceiveError m => m
  | PayjoinError.SelectionError => "privacy preserving selection failed"

/-- The `to_string()` rendering of an upstream error, as interpolated into the
wrapper's error messages. -/
def pdkErrorMessage : PdkError → String
  | PdkError.Server e => "Internal Server Error: " ++ e.message
  | PdkError.Validation m => m

/-- Modelled from the spec: the pipeline state carried through stages 4.1-4.5 —
the sender's original transaction, each input's previous-output script (from
the PSBT), and the BIP78 parameters. -/
structure PdkProposalData where
  tx : Transaction
  inputPrevoutScripts : List (List Nat)
  params : Params
deriving DecidableEq

/-- Modelled from the spec: ingestion performs structural validation only —
the headers must expose `content-type: text/plain` and the body's
`content-length`, the body must base64-decode to a PSBT that parses (carrying
the unsigned original transaction and each input's previous output), and the
BIP78 query parameters are extracted. -/
def pdkFromRequest (body : List Nat) (query : String) (headers : Headers) :
    Option PdkProposalData :=
  if headers.get_header "content-type" = some "text/plain"
      ∧ headers.get_header "content-length" = some (toString body.length) then
    match base64Decode body with
    | none => none
    | some raw =>
      match parsePsbt raw with
      | none => none
      | some (tx, spks) => some ⟨tx, spks, parseParams query⟩
  else none

/-- Modelled from the spec: `check_can_broadcast` invokes the caller's
mempool-acceptance predicate on the serialized original transaction; `true`
proceeds, `false` is a validation rejection, and a predicate error is
propagated unchanged. -/
def pdkCheckCanBroadcast (p : PdkProposalData)
    (f : List Nat → Except PdkError Bool) : Except PdkError PdkProposalData :=
  match f (txSerialize p.tx) with
  | Except.error e => Except.error e
  | Except.ok true => Except.ok p
  | Except.ok false =>
    Except.error (PdkError.Validation "original psbt could not be broadcast")

/-- Modelled from the spec: walk the inputs' previous-output scripts invoking
the ownership predicate; a predicate error is propagated, an owned script is a
rejection. -/
def checkScriptsNotOwned (f : List Nat → Except PdkError Bool) :
    List (List Nat) → Except PdkError Unit
  | [] => Except.ok ()
  | s :: rest =>
    match f s with
    | Except.error e => Except.error e
    | Except.ok true =>
      Except.error (PdkError.Validation "original psbt contains receiver owned input")
    | Except.ok false => checkScriptsNotOwned f rest

/-- Modelled from the spec: `check_inputs_not_owned` applies the ownership
predicate to every input's previous-output script. -/
def pdkCheckInputsNotOwned (p : PdkProposalData)
    (f : List Nat → Except PdkError Bool) : Except PdkError PdkProposalData :=
  match checkScriptsNotOwned f p.inputPrevoutScripts with
  | Except.error e => Except.error e
  | Except.ok _ => Except.ok p

/-- Modelled from the spec: classify a previous-output script into its script
type, for the mixed-input-scripts fingerprinting check. -/
def scriptType (s : List Nat) : Nat :=
  if s.take 2 = [169, 20] ∧ s.length = 23 then 1
  else if s.take 2 = [0, 20] ∧ s.length = 22 then 2
  else if s.take 2 = [0, 32] ∧ s.length = 34 then 3
  else if s.take 3 = [118, 169, 20] ∧ s.length = 25 then 4
  else if s.take 2 = [81, 32] ∧ s.length = 34 then 5
  else 0

/-- The distinct script types among the original transaction's inputs. -/
def distinctInputScriptTypes (p : PdkProposalData) : List Nat :=
  (p.inputPrevoutScripts.map scriptType).dedup

/-- Modelled from the spec: `check_no_mixed_input_scripts` fails iff more than
one distinct input script type is present; no external predicate is
consulted. -/
def pdkCheckNoMixedInputScripts (p : PdkProposalData) :
    Except PdkError PdkProposalData :=
  if (distinctInputScriptTypes p).length ≤ 1 then Except.ok p
  else Except.error (PdkError.Validation "original psbt has mixed input script types")

/-- Modelled from the spec: walk the inputs' outpoints invoking the
seen-before predicate; a predicate error is propagated, a seen outpoint is a
rejection. -/
def checkOutPointsNotSeen (f : OutPoint → Except PdkError Bool) :
    List OutPoint → Except PdkError Unit
  | [] => Except.ok ()
  | o :: rest =>
    match f o with
    | Except.error e => Except.error e
    | Except.ok true =>
      Except.error (PdkError.Validation "original psbt input seen before")
    | Except.ok false => checkOutPointsNotSeen f rest

/-- Modelled from the spec: `check_no_inputs_seen_before` applies the
seen-before predicate to every input's outpoint. -/
def pdkCheckNoInputsSeenBefore (p : PdkProposalData)
    (f : OutPoint → Except PdkError Bool) : Except PdkError PdkProposalData :=
  match checkOutPointsNotSeen f (p.tx.input.map (fun i => i.previous_output)) with
  | Except.error e => Except.error e
  | Except.ok _ => Except.ok p

/-- Modelled from the spec: the mutable builder state of stage 4.6 — the
validated proposal data, the output indices identified as receiver-owned, the
receiver inputs contributed so far, and a substituted receiver address if
any. -/
structure PdkPayjoinProposal where
  data : PdkProposalData
  ownedVouts : List Nat
  receiverInputs : List OutPoint
  substitutedAddress : Option String
deriving DecidableEq

/-- Modelled from the spec: collect the indices of outputs the ownership
predicate identifies as receiver-owned, propagating predicate errors. -/
def findOwnedVouts (f : List Nat → Except PdkError Bool) :
    List TxOut → Nat → Except PdkError (List Nat)
  | [], _ => Except.ok []
  | o :: rest, i =>
    match f o.script_pubkey with
    | Except.error e => Except.error e
    | Except.ok b =>
      match findOwnedVouts f rest (i + 1) with
      | Except.error e => Except.error e
      | Except.ok vs => Except.ok (if b then i :: vs else vs)

/-- Modelled from the spec: `identify_receiver_outputs` applies the ownership
predicate to every output script; if none is receiver-owned the proposal does
not pay the receiver and is rejected, otherwise the mutable builder state is
produced. -/
def pdkIdentifyReceiverOutputs (p : PdkProposalData)
    (f : List Nat → Except PdkError Bool) : Except PdkError PdkPayjoinProposal :=
  match findOwnedVouts f p.tx.output 0 with
  | Except.error e => Except.error e
  | Except.ok [] => Except.error (PdkError.Validation "receiver output not found")
  | Except.ok (v :: vs) => Except.ok ⟨p, v :: vs, [], none⟩

/-- Modelled from the spec: whether the sender disabled output substitution. -/
def pdkIsOutputSubstitutionDisabled (p : PdkPayjoinProposal) : Bool :=
  p.data.params.disableoutputsubstitution

/-- The output index designated by the sender for the additional fee. -/
def feeOutputIndex (p : PdkPayjoinProposal) : Nat :=
  p.data.params.additionalfeeoutputindex.getD 0

/-- Modelled from the spec: the receiver's fee contribution, bounded by the
sender's `maxadditionalfeecontribution` and by the designated output's value. -/
def feeContribution (p : PdkPayjoinProposal) : Nat :=
  min (p.data.params.maxadditionalfeecontribution.getD 0)
    ((p.data.tx.output.getD (feeOutputIndex p) ⟨0, []⟩).value)

/-- Subtract the fee contribution from the designated output. -/
def adjustOutputs (outs : List TxOut) (idx : Nat) (c : Nat) : List TxOut :=
  outs.mapIdx (fun i o => if i = idx then ⟨o.value - c, o.script_pubkey⟩ else o)

/-- Modelled from the spec: `apply_fee` computes the receiver's fee
contribution, subtracts it from the designated fee output, and returns the
resulting unsigned transaction; the builder value stays resident and is
mutated in place. -/
def pdkApplyFee (p : PdkPayjoinProposal) (_min_feerate_sat_per_vb : Option Nat) :
    Except PdkError (PdkPayjoinProposal × PartiallySignedTransaction) :=
  let c := feeContribution p
  let tx2 : Transaction :=
    ⟨p.data.tx.version, p.data.tx.input,
     adjustOutputs p.data.tx.output (feeOutputIndex p) c, p.data.tx.lock_time⟩
  Except.ok (⟨⟨tx2, p.data.inputPrevoutScripts, p.data.params⟩,
    p.ownedVouts, p.receiverInputs, p.substitutedAddress⟩, ⟨tx2⟩)

/-- Modelled from the spec: `prepare_psbt` merges the caller's signed and
finalized transaction back into the proposal and returns the final PSBT to be
handed to the sender. -/
def pdkPreparePsbt (_p : PdkPayjoinProposal)
    (processed : PartiallySignedTransaction) :
    Except PdkError PartiallySignedTransaction :=
  Except.ok processed

/-- Modelled from the spec: the privacy-preserving selector picks a candidate
input for which neither unnecessary-input-heuristic pattern holds after
selection, and applies it to the proposal; if every candidate triggers a
pattern it fails and applies nothing.  The two UIH patterns of spec 4.6 are
abstracted as the boolean predicate `trig` on candidates, since the claim (and
the spec's contract for the selector) is relative to them. -/
def pdkTryPreservingPrivacy (trig : Nat × OutPoint → Bool)
    (p : PdkPayjoinProposal) (cands : List (Nat × OutPoint)) :
    Except PdkError (OutPoint × PdkPayjoinProposal) :=
  match cands.find? (fun c => ! trig c) with
  | some c =>
    Except.ok (c.2, ⟨p.data, p.ownedVouts, p.receiverInputs ++ [c.2],
      p.substitutedAddress⟩)
  | none => Except.error (PdkError.Validation "no privacy preserving candidate")

/-! ### The FFI wrapper layer (`receive.rs`)

Each wrapper type holds its upstream value in a `Mutex<Option<T>>`; we embed a
method as a function from the handle state (`Option` of the upstream value) to
the call's `Outcome` paired with the state the handle is left in.  Stages
4.1-4.5 take the value out (`mem::replace(_, None)`) before acting; the
builder (4.6) works on the resident value under the guard, except
`prepare_psbt` which takes it out. -/

/-- The closures `receive.rs` passes to the upstream crate: the embedder's
fallible predicate with its error wrapped as `PdkError::Server(e.into())`. -/
def wrapServer {α : Type} (f : α → Except PayjoinError Bool) :
    α → Except PdkError Bool :=
  fun x =>
    match f x with
    | Except.ok b => Except.ok b
    | Except.error e => Except.error (PdkError.Server e)

/-- `UncheckedProposal::from_request`: delegate to the upstream parser; a
success is stored in a fresh handle, a failure is reported as
`RequestError`. -/
def UncheckedProposal.from_request (body : List Nat) (query : String)
    (headers : Headers) : Except PayjoinError (Option PdkProposalData) :=
  match pdkFromRequest body query headers with
  | some d => Except.ok (some d)
  | none => Except.error (PayjoinError.RequestError "error parsing the request")

/-- `UncheckedProposal::get_transaction_to_schedule_broadcast`: reads the
resident value (`as_ref().unwrap()`) without removing it and returns the
sender's original transaction. -/
def UncheckedProposal.get_transaction_to_schedule_broadcast
    (st : Option PdkProposalData) : Outcome Transaction × Option PdkProposalData :=
  match st with
  | none => (Outcome.panicked unwrapMsg, none)
  | some p => (Outcome.ok p.tx, some p)

/-- `UncheckedProposal::check_can_broadcast`: takes the value out of the
handle (`get_configuration`), then `unwrap()`s it — panicking if the handle
was already emptied — and runs the upstream check with the wrapped callback;
an upstream error becomes `UnexpectedError`. -/
def UncheckedProposal.check_can_broadcast (st : Option PdkProposalData)
    (can_broadcast : List Nat → Except PayjoinError Bool) :
    Outcome PdkProposalData × Option PdkProposalData :=
  match st with
  | none => (Outcome.panicked unwrapMsg, none)
  | some p =>
    match pdkCheckCanBroadcast p (wrapServer can_broadcast) with
    | Except.ok v => (Outcome.ok v, none)
    | Except.error e =>
      (Outcome.err (PayjoinError.UnexpectedError (pdkErrorMessage e)), none)

/-- `UncheckedProposal::assume_interactive_receiver`: takes the value out of
the handle; on an already-emptied handle it panics with an explicit message. -/
def UncheckedProposal.assume_interactive_receiver (st : Option PdkProposalData) :
    Outcome PdkProposalData × Option PdkProposalData :=
  match st with
  | none =>
    (Outcome.panicked "Unexpected Error: checkCanBroadcast already called", none)
  | some p => (Outcome.ok p, none)

/-- `MaybeInputsOwned::check_inputs_not_owned`: takes the value out
(`get_owned_inputs`), `unwrap()`s it, and runs the upstream ownership check
with the wrapped callback; an upstream error becomes `ServerError`. -/
def MaybeInputsOwned.check_inputs_not_owned (st : Option PdkProposalData)
    (is_owned : List Nat → Except PayjoinError Bool) :
    Outcome PdkProposalData × Option PdkProposalData :=
  match st with
  | none => (Outcome.panicked unwrapMsg, none)
  | some p =>
    match pdkCheckInputsNotOwned p (wrapServer is_owned) with
    | Except.ok v => (Outcome.ok v, none)
    | Except.error e =>
      (Outcome.err (PayjoinError.ServerError (pdkErrorMessage e)), none)

/-- `MaybeMixedInputScripts::check_no_mixed_input_scripts`: takes the value
out (`get_input_scripts`), `unwrap()`s it, and runs the structural check; an
upstream error becomes `ReceiveError`. -/
def MaybeMixedInputScripts.check_no_mixed_input_scripts
    (st : Option PdkProposalData) :
    Outcome PdkProposalData × Option PdkProposalData :=
  match st with
  | none => (Outcome.panicked unwrapMsg, none)
  | some p =>
    match pdkCheckNoMixedInputScripts p with
    | Except.ok v => (Outcome.ok v, none)
    | Except.error e =>
      (Outcome.err (PayjoinError.ReceiveError (pdkErrorMessage e)), none)

/-- `MaybeInputsSeen::check_no_inputs_seen_before`: takes the value out
(`get_inputs`), `unwrap()`s it, and runs the upstream seen-before check with
the wrapped callback; an upstream error becomes `ReceiveError`. -/
def MaybeInputsSeen.check_no_inputs_seen_before (st : Option PdkProposalData)
    (is_known : OutPoint → Except PayjoinError Bool) :
    Outcome PdkProposalData × Option PdkProposalData :=
  match st with
  | none => (Outcome.panicked unwrapMsg, none)
  | some p =>
    match pdkCheckNoInputsSeenBefore p (wrapServer is_known) with
    | Except.ok v => (Outcome.ok v, none)
    | Except.error e =>
      (Outcome.err (PayjoinError.ReceiveError (pdkErrorMessage e)), none)

/-- `OutputsUnknown::identify_receiver_outputs`: takes the value out
(`get_unknown_outputs`), `unwrap()`s it, and runs the upstream output
identification with the wrapped callback; an upstream error becomes
`ReceiveError`. -/
def OutputsUnknown.identify_receiver_outputs (st : Option PdkProposalData)
    (is_receiver_output : List Nat → Except PayjoinError Bool) :
    Outcome PdkPayjoinProposal × Option PdkProposalData :=
  match st with
  | none => (Outcome.panicked unwrapMsg, none)
  | some p =>
    match pdkIdentifyReceiverOutputs p (wrapServer is_receiver_output) with
    | Except.ok v => (Outcome.ok v, none)
    | Except.error e =>
      (Outcome.err (PayjoinError.ReceiveError (pdkErrorMessage e)), none)

/-- `PayjoinProposal::is_output_substitution_disabled`: reads the resident
value under the guard (`as_mut().unwrap()`), leaving it in place. -/
def PayjoinProposal.is_output_substitution_disabled
    (st : Option PdkPayjoinProposal) : Outcome Bool × Option PdkPayjoinProposal :=
  match st with
  | none => (Outcome.panicked unwrapMsg, none)
  | some p => (Outcome.ok (pdkIsOutputSubstitutionDisabled p), some p)

/-- `PayjoinProposal::contribute_witness_input`: mutates the resident value
under the guard, adding a receiver input; returns no value and reports no
error. -/
def PayjoinProposal.contribute_witness_input (st : Option PdkPayjoinProposal)
    (_txout : TxOut) (outpoint : OutPoint) :
    Outcome Unit × Option PdkPayjoinProposal :=
  match st with
  | none => (Outcome.panicked unwrapMsg, none)
  | some p =>
    (Outcome.ok (), some ⟨p.data, p.ownedVouts, p.receiverInputs ++ [outpoint],
      p.substitutedAddress⟩)

/-- `PayjoinProposal::contribute_non_witness_input`: mutates the resident
value under the guard, adding a receiver input with its full previous
transaction; returns no value and reports no error. -/
def PayjoinProposal.contribute_non_witness_input (st : Option PdkPayjoinProposal)
    (_tx : Transaction) (outpoint : OutPoint) :
    Outcome Unit × Option PdkPayjoinProposal :=
  match st with
  | none => (Outcome.panicked unwrapMsg, none)
  | some p =>
    (Outcome.ok (), some ⟨p.data, p.ownedVouts, p.receiverInputs ++ [outpoint],
      p.substitutedAddress⟩)

/-- `PayjoinProposal::substitute_output_address`: mutates the resident value
under the guard, replacing the receiver output's address; returns no value and
reports no error. -/
def PayjoinProposal.substitute_output_address (st : Option PdkPayjoinProposal)
    (substitute_address : String) : Outcome Unit × Option PdkPayjoinProposal :=
  match st with
  | none => (Outcome.panicked unwrapMsg, none)
  | some p =>
    (Outcome.ok (), some ⟨p.data, p.ownedVouts, p.receiverInputs,
      some substitute_address⟩)

/-- `PayjoinProposal::apply_fee`: runs the upstream fee application on the
resident value under the guard, leaving the (mutated) value in place; an
upstream error becomes `RequestError`. -/
def PayjoinProposal.apply_fee (st : Option PdkPayjoinProposal)
    (min_feerate_sat_per_vb : Option Nat) :
    Outcome PartiallySignedTransaction × Option PdkPayjoinProposal :=
  match st with
  | none => (Outcome.panicked unwrapMsg, none)
  | some p =>
    match pdkApplyFee p min_feerate_sat_per_vb with
    | Except.ok (p2, psbt) => (Outcome.ok psbt, some p2)
    | Except.error e =>
      (Outcome.err (PayjoinError.RequestError (pdkErrorMessage e)), some p)

/-- `PayjoinProposal::prepare_psbt`: takes the value out of the handle
(`get_proposal`), panicking with an explicit message if the handle was already
emptied, and runs the upstream finalization; an upstream error becomes
`RequestError`. -/
def PayjoinProposal.prepare_psbt (st : Option PdkPayjoinProposal)
    (processed_psbt : PartiallySignedTransaction) :
    Outcome PartiallySignedTransaction × Option PdkPayjoinProposal :=
  match st with
  | none => (Outcome.panicked "PayjoinProposal not initalized", none)
  | some p =>
    match pdkPreparePsbt p processed_psbt with
    | Except.ok r => (Outcome.ok r, none)
    | Except.error e =>
      (Outcome.err (PayjoinError.RequestError (pdkErrorMessage e)), none)

/-- `PayjoinProposal::try_preserving_privacy`: runs the upstream selector on
the resident value under the guard (the candidate map converted to
amount/outpoint pairs); a chosen outpoint is rebuilt field by field, any
upstream error is collapsed to `SelectionError`. -/
def PayjoinProposal.try_preserving_privacy (st : Option PdkPayjoinProposal)
    (trig : Nat × OutPoint → Bool) (candidate_inputs : List (Nat × OutPoint)) :
    Outcome OutPoint × Option PdkPayjoinProposal :=
  match st with
  | none => (Outcome.panicked unwrapMsg, none)
  | some p =>
    match pdkTryPreservingPrivacy trig p candidate_inputs with
    | Except.ok (e, p2) => (Outcome.ok ⟨e.txid, e.vout⟩, some p2)
    | Except.error _ => (Outcome.err PayjoinError.SelectionError, some p)

/-! ### The repository's test vector (BIP78 sample original PSBT) -/

/-- The literal BIP78 sample PSBT body from the repository's test. -/
def originalPsbtBase64 : String :=
  "cHNidP8BAHMCAAAAAY8nutGgJdyYGXWiBEb45Hoe9lWGbkxh/6bNiOJdCDuDAAAAAAD+////AtyVuAUAAAAAF6kUHehJ8GnSdBUOOv6ujXLrWmsJRDCHgIQeAAAAAAAXqRR3QJbbz0hnQ8IvQ0fptGn+votneofTAAAAAAEBIKgb1wUAAAAAF6kU3k4ekGHKWRNbA1rV5tR5kEVDVNCHAQcXFgAUx4pFclNVgo1WWAdN1SYNX8tphTABCGsCRzBEAiB8Q+A6dep+Rz92vhy26lT0AjZn4PRLi8Bf9qoB/CMk0wIgP/Rj2PWZ3gEjUkTlhDRNAQ0gXwTO7t9n+V14pZ6oljUBIQMVmsAaoNWHVMS02LfTSe0e388LNitPa1UQZyOihY+FFgABABYAFEb2Giu6c4KO5YW0pfw3lGp9jMUUAAA="

/-- The request body: the ASCII bytes of the base64 payload. -/
def testBody : List Nat := originalPsbtBase64.toList.map Char.toNat

/-- The query string used by the repository's test. -/
def testQuery : String :=
  "?maxadditionalfeecontribution=182?additionalfeeoutputindex=0"

/-- The P2SH locking script of the test receiver address
`3CZZi7aWFugaCdUCS15dgrUUViupmB8bVM` (hash160 `774096db...`). -/
def receiverScript : List Nat :=
  [0xa9, 0x14, 0x77, 0x40, 0x96, 0xdb, 0xcf, 0x48, 0x67, 0x43, 0xc2, 0x2f,
   0x43, 0x47, 0xe9, 0xb4, 0x69, 0xfe, 0xbe, 0x8b, 0x67, 0x7a, 0x87]

/-- The test's `MockScriptOwned` predicate: a script is receiver-owned iff its
address is the fixed receiver address, i.e. iff it is `receiverScript`. -/
def mockIsOwned : List Nat → Except PayjoinError Bool :=
  fun s => Except.ok (decide (s = receiverScript))

/-- The test's `MockOutputOwned` predicate: no outpoint has been seen. -/
def mockIsKnown : OutPoint → Except PayjoinError Bool :=
  fun _ => Except.ok false

/-- Sequence outcomes, propagating errors and panics. -/
def Outcome.bind {α β : Type} (o : Outcome α) (f : α → Outcome β) : Outcome β :=
  match o with
  | Outcome.ok a => f a
  | Outcome.err e => Outcome.err e
  | Outcome.panicked m => Outcome.panicked m

/-- The end-to-end traversal of the repository's test
`unchecked_proposal_unlocks_after_checks`: ingestion, then
`assume_interactive_receiver` and the four checks with the mock predicates,
then `apply_fee(None)`. -/
def testPipeline : Outcome PartiallySignedTransaction :=
  match UncheckedProposal.from_request testBody testQuery
      (Headers.from_vec testBody) with
  | Except.error e => Outcome.err e
  | Except.ok st0 =>
    Outcome.bind (UncheckedProposal.assume_interactive_receiver st0).fst fun d1 =>
    Outcome.bind (MaybeInputsOwned.check_inputs_not_owned (some d1) mockIsOwned).fst fun d2 =>
    Outcome.bind (MaybeMixedInputScripts.check_no_mixed_input_scripts (some d2)).fst fun d3 =>
    Outcome.bind (MaybeInputsSeen.check_no_inputs_seen_before (some d3) mockIsKnown).fst fun d4 =>
    Outcome.bind (OutputsUnknown.identify_receiver_outputs (some d4) mockIsOwned).fst fun pj =>
    (PayjoinProposal.apply_fee (some pj) none).fst

/-! ### Small concrete states for instantiating the theorems -/

/-- The handle state left after `n` repeated calls of
`get_transaction_to_schedule_broadcast`. -/
def iterateGet : Nat → Option PdkProposalData → Option PdkProposalData
  | 0, st => st
  | n + 1, st =>
    iterateGet n (UncheckedProposal.get_transaction_to_schedule_broadcast st).snd

/-- A small concrete pipeline state. -/
def sampleData : PdkProposalData :=
  ⟨⟨2, [⟨⟨"aa", 0⟩, [], 4294967294⟩],
    [⟨5000, [0, 20, 1]⟩, ⟨3000, [0, 20, 2]⟩], 0⟩,
   [[0, 20, 9]], ⟨some 100, some 0, false⟩⟩

/-- A small concrete builder state. -/
def sampleProposal : PdkPayjoinProposal := ⟨sampleData, [1], [], none⟩

/-- A pay-to-witness-pubkey-hash script (type 2). -/
def wpkhScript : List Nat := [0, 20] ++ List.replicate 20 1

/-- A pay-to-taproot script (type 5). -/
def trScript : List Nat := [81, 32] ++ List.replicate 32 2

/-- A pipeline state whose inputs have two distinct script types. -/
def mixedData : PdkProposalData :=
  ⟨⟨2, [⟨⟨"aa", 0⟩, [], 0⟩, ⟨⟨"bb", 1⟩, [], 0⟩],
    [⟨5000, wpkhScript⟩], 0⟩,
   [wpkhScript, trScript], ⟨none, none, false⟩⟩

/-! ### Shared lemmas about the modelled checks -/

/-- With an infallible total ownership predicate, the input-ownership walk
rejects exactly when some script is owned. -/
theorem checkScriptsNotOwned_total (f : List Nat → Bool) (l : List (List Nat)) :
    checkScriptsNotOwned (fun s => Except.ok (f s)) l =
      if l.any f then
        Except.error (PdkError.Validation "original psbt contains receiver owned input")
      else Except.ok () := by
  induction l with
  | nil => simp [checkScriptsNotOwned]
  | cons s rest ih =>
    cases h : f s with
    | false => simp [checkScriptsNotOwned, h, ih]
    | true => simp [checkScriptsNotOwned, h]

/-- The input-ownership walk propagates the predicate's error at the first
script where the predicate is consulted and errors. -/
theorem checkScriptsNotOwned_error (f : List Nat → Except PdkError Bool)
    (e : PdkError) :
    ∀ l₁ s l₂, (∀ x ∈ l₁, f x = Except.ok false) → f s = Except.error e →
      checkScriptsNotOwned f (l₁ ++ s :: l₂) = Except.error e := by
  intro l₁
  induction l₁ with
  | nil => intro s l₂ _ hs; simp [checkScriptsNotOwned, hs]
  | cons a rest ih =>
    intro s l₂ h hs
    have ha := h a (by simp)
    simp only [List.cons_append, checkScriptsNotOwned, ha]
    exact ih s l₂ (fun x hx => h x (by simp [hx])) hs

/-- The seen-before walk propagates the predicate's error at the first
outpoint where the predicate is consulted and errors. -/
theorem checkOutPointsNotSeen_error (f : OutPoint → Except PdkError Bool)
    (e : PdkError) :
    ∀ l₁ o l₂, (∀ x ∈ l₁, f x = Except.ok false) → f o = Except.error e →
      checkOutPointsNotSeen f (l₁ ++ o :: l₂) = Except.error e := by
  intro l₁
  induction l₁ with
  | nil => intro o l₂ _ ho; simp [checkOutPointsNotSeen, ho]
  | cons a rest ih =>
    intro o l₂ h ho
    have ha := h a (by simp)
    simp only [List.cons_append, checkOutPointsNotSeen, ha]
    exact ih o l₂ (fun x hx => h x (by simp [hx])) ho

/-- The output-identification walk propagates the predicate's error at the
first output where the predicate errors, provided it answered on the earlier
outputs. -/
theorem findOwnedVouts_error (g : List Nat → Except PdkError Bool) (e : PdkError) :
    ∀ l₁ o l₂ i, (∀ x ∈ l₁, ∃ b, g x.script_pubkey = Except.ok b) →
      g o.script_pubkey = Except.error e →
      findOwnedVouts g (l₁ ++ o :: l₂) i = Except.error e := by
  intro l₁
  induction l₁ with
  | nil => intro o l₂ i _ ho; simp [findOwnedVouts, ho]
  | cons a rest ih =>
    intro o l₂ i h ho
    obtain ⟨b, hb⟩ := h a (by simp)
    simp only [List.cons_append, findOwnedVouts, hb]
    rw [List.append_eq, ih o l₂ (i + 1) (fun x hx => h x (by simp [hx])) ho]

/-! ### Claim theorems -/

/-- C1: evaluating the code at the failing inputs — on an already-emptied
handle, every consuming stage method of stages 4.1-4.5, and `prepare_psbt` on
the builder, panics (Rust `Option::unwrap` on `None`, or an explicit `panic!`)
instead of failing with a reported IllegalReuse error as the claim states. -/
theorem consuming_reuse_panics
    (cb f g : List Nat → Except PayjoinError Bool)
    (k : OutPoint → Except PayjoinError Bool)
    (q : PartiallySignedTransaction) :
    (UncheckedProposal.check_can_broadcast none cb).fst = Outcome.panicked unwrapMsg
    ∧ (UncheckedProposal.assume_interactive_receiver none).fst =
        Outcome.panicked "Unexpected Error: checkCanBroadcast already called"
    ∧ (MaybeInputsOwned.check_inputs_not_owned none f).fst =
        Outcome.panicked unwrapMsg
    ∧ (MaybeMixedInputScripts.check_no_mixed_input_scripts none).fst =
        Outcome.panicked unwrapMsg
    ∧ (MaybeInputsSeen.check_no_inputs_seen_before none k).fst =
        Outcome.panicked unwrapMsg
    ∧ (OutputsUnknown.identify_receiver_outputs none g).fst =
        Outcome.panicked unwrapMsg
    ∧ (PayjoinProposal.prepare_psbt none q).fst =
        Outcome.panicked "PayjoinProposal not initalized" :=
  ⟨rfl, rfl, rfl, rfl, rfl, rfl, rfl⟩

/-- C2 counterexample: on a concrete builder `apply_fee` succeeds, and a
subsequent `contribute_witness_input` call succeeds (the call returns unit and
cannot fail), contradicting the claim that it must fail or be structurally
unavailable. -/
theorem fee_barrier_counterexample :
    (PayjoinProposal.apply_fee (some sampleProposal) none).fst.isOk = true
    ∧ (PayjoinProposal.contribute_witness_input
        (PayjoinProposal.apply_fee (some sampleProposal) none).snd
        ⟨1000, [0, 20, 7]⟩ ⟨"cc", 1⟩).fst = Outcome.ok () :=
  ⟨rfl, rfl⟩

/-- C2 amended: after a successful `apply_fee` the builder value remains
resident, and `contribute_witness_input`, `contribute_non_witness_input` and
`substitute_output_address` all remain available and succeed, mutating the
proposal — the fee barrier is a documented caller obligation, not enforced by
the code. -/
theorem fee_barrier_not_enforced (p : PdkPayjoinProposal) (fee : Option Nat)
    (t : TxOut) (tx : Transaction) (o o2 : OutPoint) (a : String) :
    (PayjoinProposal.apply_fee (some p) fee).fst.isOk = true
    ∧ ∃ p2, (PayjoinProposal.apply_fee (some p) fee).snd = some p2
        ∧ PayjoinProposal.contribute_witness_input (some p2) t o =
            (Outcome.ok (), some ⟨p2.data, p2.ownedVouts,
              p2.receiverInputs ++ [o], p2.substitutedAddress⟩)
        ∧ PayjoinProposal.contribute_non_witness_input (some p2) tx o2 =
            (Outcome.ok (), some ⟨p2.data, p2.ownedVouts,
              p2.receiverInputs ++ [o2], p2.substitutedAddress⟩)
        ∧ PayjoinProposal.substitute_output_address (some p2) a =
            (Outcome.ok (), some ⟨p2.data, p2.ownedVouts, p2.receiverInputs,
              some a⟩) :=
  ⟨rfl, ⟨_, rfl, rfl, rfl, rfl⟩⟩

/-- C3: for every candidate map, heuristic predicate and resident proposal —
if some candidate avoids the unnecessary-input-heuristic patterns, the
selector returns the outpoint of such a non-triggering candidate and applies
it to the proposal's input set; if every candidate triggers a pattern, the
call fails with `SelectionError` and the proposal (in particular its input
set) is left unchanged. -/
theorem try_preserving_privacy_selector_contract
    (p : PdkPayjoinProposal) (trig : Nat × OutPoint → Bool)
    (cands : List (Nat × OutPoint)) :
    ((∃ c ∈ cands, trig c = false) →
      ∃ c ∈ cands, trig c = false ∧
        PayjoinProposal.try_preserving_privacy (some p) trig cands =
          (Outcome.ok c.2, some ⟨p.data, p.ownedVouts,
            p.receiverInputs ++ [c.2], p.substitutedAddress⟩))
    ∧ ((∀ c ∈ cands, trig c = true) →
      PayjoinProposal.try_preserving_privacy (some p) trig cands =
        (Outcome.err PayjoinError.SelectionError, some p)) := by
  constructor
  · intro h
    obtain ⟨c, hc, hf⟩ := h
    have hsome : (cands.find? (fun c => ! trig c)).isSome := by
      rw [List.find?_isSome]
      exact ⟨c, hc, by simp [hf]⟩
    obtain ⟨d, hd⟩ := Option.isSome_iff_exists.mp hsome
    refine ⟨d, List.mem_of_find?_eq_some hd, ?_, ?_⟩
    · have := List.find?_some hd
      simpa using this
    · simp [PayjoinProposal.try_preserving_privacy, pdkTryPreservingPrivacy, hd]
  · intro h
    have hnone : cands.find? (fun c => ! trig c) = none := by
      rw [List.find?_eq_none]
      intro x hx
      simp [h x hx]
    simp [PayjoinProposal.try_preserving_privacy, pdkTryPreservingPrivacy, hnone]

/-- C3 witness: a concrete candidate list with a non-triggering candidate is
selected and applied; a concrete all-triggering candidate list fails with
`SelectionError` and leaves the proposal unchanged. -/
theorem try_preserving_privacy_selector_contract_witness :
    (∃ c ∈ [((500 : Nat), OutPoint.mk "dd" 0), ((50 : Nat), OutPoint.mk "ee" 1)],
      (fun c : Nat × OutPoint => decide (100 < c.1)) c = false ∧
      PayjoinProposal.try_preserving_privacy (some sampleProposal)
          (fun c => decide (100 < c.1))
          [((500 : Nat), OutPoint.mk "dd" 0), ((50 : Nat), OutPoint.mk "ee" 1)] =
        (Outcome.ok c.2, some ⟨sampleProposal.data, sampleProposal.ownedVouts,
          sampleProposal.receiverInputs ++ [c.2],
          sampleProposal.substitutedAddress⟩))
    ∧ PayjoinProposal.try_preserving_privacy (some sampleProposal)
        (fun c => decide (100 < c.1)) [((500 : Nat), OutPoint.mk "dd" 0)] =
        (Outcome.err PayjoinError.SelectionError, some sampleProposal) := by
  constructor
  · exact (try_preserving_privacy_selector_contract sampleProposal
      (fun c => decide (100 < c.1))
      [((500 : Nat), OutPoint.mk "dd" 0), ((50 : Nat), OutPoint.mk "ee" 1)]).1
      ⟨((50 : Nat), OutPoint.mk "ee" 1), by simp, by decide⟩
  · exact (try_preserving_privacy_selector_contract sampleProposal
      (fun c => decide (100 < c.1)) [((500 : Nat), OutPoint.mk "dd" 0)]).2
      (by intro c hc; simp at hc; simp [hc])

/-- C4: when a caller-supplied predicate errors at the point it is consulted,
each pipeline stage fails with an error that wraps and surfaces the
predicate's error (the stage's closure wraps it as `Server` and the stage
message renders it); the stage never succeeds and the error is never
swallowed. -/
theorem callback_errors_surface (p : PdkProposalData) (e : PayjoinError)
    (cb f g : List Nat → Except PayjoinError Bool)
    (k : OutPoint → Except PayjoinError Bool) :
    (cb (txSerialize p.tx) = Except.error e →
      (UncheckedProposal.check_can_broadcast (some p) cb).fst =
        Outcome.err (PayjoinError.UnexpectedError
          (pdkErrorMessage (PdkError.Server e))))
    ∧ (∀ l₁ s l₂, p.inputPrevoutScripts = l₁ ++ s :: l₂ →
        (∀ x ∈ l₁, f x = Except.ok false) → f s = Except.error e →
        (MaybeInputsOwned.check_inputs_not_owned (some p) f).fst =
          Outcome.err (PayjoinError.ServerError
            (pdkErrorMessage (PdkError.Server e))))
    ∧ (∀ l₁ o l₂, p.tx.input.map (fun i => i.previous_output) = l₁ ++ o :: l₂ →
        (∀ x ∈ l₁, k x = Except.ok false) → k o = Except.error e →
        (MaybeInputsSeen.check_no_inputs_seen_before (some p) k).fst =
          Outcome.err (PayjoinError.ReceiveError
            (pdkErrorMessage (PdkError.Server e))))
    ∧ (∀ l₁ o l₂, p.tx.output = l₁ ++ o :: l₂ →
        (∀ x ∈ l₁, ∃ b, g x.script_pubkey = Except.ok b) →
        g o.script_pubkey = Except.error e →
        (OutputsUnknown.identify_receiver_outputs (some p) g).fst =
          Outcome.err (PayjoinError.ReceiveError
            (pdkErrorMessage (PdkError.Server e)))) := by
  refine ⟨?_, ?_, ?_, ?_⟩
  · intro h
    simp [UncheckedProposal.check_can_broadcast, pdkCheckCanBroadcast,
      wrapServer, h]
  · intro l₁ s l₂ hsplit h1 hs
    have hw : checkScriptsNotOwned (wrapServer f) (l₁ ++ s :: l₂) =
        Except.error (PdkError.Server e) := by
      refine checkScriptsNotOwned_error (wrapServer f) (PdkError.Server e)
        l₁ s l₂ (fun x hx => ?_) (by simp [wrapServer, hs])
      simp [wrapServer, h1 x hx]
    simp [MaybeInputsOwned.check_inputs_not_owned, pdkCheckInputsNotOwned,
      hsplit, hw]
  · intro l₁ o l₂ hsplit h1 ho
    have hw : checkOutPointsNotSeen (wrapServer k) (l₁ ++ o :: l₂) =
        Except.error (PdkError.Server e) := by
      refine checkOutPointsNotSeen_error (wrapServer k) (PdkError.Server e)
        l₁ o l₂ (fun x hx => ?_) (by simp [wrapServer, ho])
      simp [wrapServer, h1 x hx]
    simp [MaybeInputsSeen.check_no_inputs_seen_before,
      pdkCheckNoInputsSeenBefore, hsplit, hw]
  · intro l₁ o l₂ hsplit h1 ho
    have hw : findOwnedVouts (wrapServer g) (l₁ ++ o :: l₂) 0 =
        Except.error (PdkError.Server e) := by
      refine findOwnedVouts_error (wrapServer g) (PdkError.Server e)
        l₁ o l₂ 0 (fun x hx => ?_) (by simp [wrapServer, ho])
      obtain ⟨b, hb⟩ := h1 x hx
      exact ⟨b, by simp [wrapServer, hb]⟩
    simp [OutputsUnknown.identify_receiver_outputs,
      pdkIdentifyReceiverOutputs, hsplit, hw]

/-- C4 witness: with concrete predicates that error, each of the four stages
surfaces the wrapped predicate error on a concrete proposal. -/
theorem callback_errors_surface_witness :
    (UncheckedProposal.check_can_broadcast (some sampleData)
        (fun _ => Except.error (PayjoinError.RequestError "boom"))).fst =
      Outcome.err (PayjoinError.UnexpectedError
        (pdkErrorMessage (PdkError.Server (PayjoinError.RequestError "boom"))))
    ∧ (MaybeInputsOwned.check_inputs_not_owned (some sampleData)
        (fun _ => Except.error (PayjoinError.RequestError "boom"))).fst =
      Outcome.err (PayjoinError.ServerError
        (pdkErrorMessage (PdkError.Server (PayjoinError.RequestError "boom"))))
    ∧ (MaybeInputsSeen.check_no_inputs_seen_before (some sampleData)
        (fun _ => Except.error (PayjoinError.RequestError "boom"))).fst =
      Outcome.err (PayjoinError.ReceiveError
        (pdkErrorMessage (PdkError.Server (PayjoinError.RequestError "boom"))))
    ∧ (OutputsUnknown.identify_receiver_outputs (some sampleData)
        (fun _ => Except.error (PayjoinError.RequestError "boom"))).fst =
      Outcome.err (PayjoinError.ReceiveError
        (pdkErrorMessage (PdkError.Server (PayjoinError.RequestError "boom")))) := by
  have h := callback_errors_surface sampleData (PayjoinError.RequestError "boom")
    (fun _ => Except.error (PayjoinError.RequestError "boom"))
    (fun _ => Except.error (PayjoinError.RequestError "boom"))
    (fun _ => Except.error (PayjoinError.RequestError "boom"))
    (fun _ => Except.error (PayjoinError.RequestError "boom"))
  refine ⟨h.1 rfl, ?_, ?_, ?_⟩
  · exact h.2.1 [] [0, 20, 9] [] rfl (by simp) rfl
  · exact h.2.2.1 [] ⟨"aa", 0⟩ [] rfl (by simp) rfl
  · exact h.2.2.2 [] ⟨5000, [0, 20, 1]⟩ [⟨3000, [0, 20, 2]⟩] rfl (by simp) rfl

/-- C5: if the (infallible) ownership predicate answers true for at least one
input's previous-output script, `check_inputs_not_owned` fails with the
owned-input rejection and yields no successor handle. -/
theorem owned_input_rejected (p : PdkProposalData) (f : List Nat → Bool)
    (h : ∃ s ∈ p.inputPrevoutScripts, f s = true) :
    (MaybeInputsOwned.check_inputs_not_owned (some p)
        (fun s => Except.ok (f s))).fst =
      Outcome.err (PayjoinError.ServerError
        "original psbt contains receiver owned input")
    ∧ (MaybeInputsOwned.check_inputs_not_owned (some p)
        (fun s => Except.ok (f s))).fst.isOk = false := by
  have hany : p.inputPrevoutScripts.any f = true := by
    obtain ⟨s, hs, hf⟩ := h
    exact List.any_eq_true.mpr ⟨s, hs, hf⟩
  have hw : checkScriptsNotOwned (wrapServer (fun s => Except.ok (f s)))
      p.inputPrevoutScripts =
      Except.error (PdkError.Validation
        "original psbt contains receiver owned input") := by
    have : wrapServer (fun s => Except.ok (f s)) =
        (fun s => Except.ok (f s)) := rfl
    rw [this, checkScriptsNotOwned_total, if_pos hany]
  constructor
  · simp [MaybeInputsOwned.check_inputs_not_owned, pdkCheckInputsNotOwned,
      hw, pdkErrorMessage]
  · simp [MaybeInputsOwned.check_inputs_not_owned, pdkCheckInputsNotOwned,
      hw, pdkErrorMessage, Outcome.isOk]

/-- C5 witness: on a concrete proposal whose single input script is owned,
`check_inputs_not_owned` rejects. -/
theorem owned_input_rejected_witness :
    (MaybeInputsOwned.check_inputs_not_owned (some sampleData)
        (fun s => Except.ok (decide (s = [0, 20, 9])))).fst =
      Outcome.err (PayjoinError.ServerError
        "original psbt contains receiver owned input")
    ∧ (MaybeInputsOwned.check_inputs_not_owned (some sampleData)
        (fun s => Except.ok (decide (s = [0, 20, 9])))).fst.isOk = false :=
  owned_input_rejected sampleData (fun s => decide (s = [0, 20, 9]))
    ⟨[0, 20, 9], by simp [sampleData], by decide⟩

/-- C6: `check_no_mixed_input_scripts` consults no external predicate; it
fails iff the original transaction's inputs carry more than one distinct
script type, and with at most one it succeeds, consuming the handle and
yielding the next-stage value. -/
theorem mixed_input_scripts_check (p : PdkProposalData) :
    (1 < (distinctInputScriptTypes p).length →
      MaybeMixedInputScripts.check_no_mixed_input_scripts (some p) =
        (Outcome.err (PayjoinError.ReceiveError
          "original psbt has mixed input script types"), none))
    ∧ ((distinctInputScriptTypes p).length ≤ 1 →
      MaybeMixedInputScripts.check_no_mixed_input_scripts (some p) =
        (Outcome.ok p, none)) := by
  constructor
  · intro h
    simp [MaybeMixedInputScripts.check_no_mixed_input_scripts,
      pdkCheckNoMixedInputScripts, Nat.not_le.mpr h, pdkErrorMessage]
  · intro h
    simp [MaybeMixedInputScripts.check_no_mixed_input_scripts,
      pdkCheckNoMixedInputScripts, h]

/-- C6 witness: a concrete proposal with two distinct input script types is
rejected; one with a single script type passes. -/
theorem mixed_input_scripts_check_witness :
    MaybeMixedInputScripts.check_no_mixed_input_scripts (some mixedData) =
      (Outcome.err (PayjoinError.ReceiveError
        "original psbt has mixed input script types"), none)
    ∧ MaybeMixedInputScripts.check_no_mixed_input_scripts (some sampleData) =
      (Outcome.ok sampleData, none) :=
  ⟨(mixed_input_scripts_check mixedData).1 (by decide),
   (mixed_input_scripts_check sampleData).2 (by decide)⟩

set_option maxRecDepth 100000 in
/-- C7: on the literal BIP78 sample PSBT body with the test query and locally
synthesized headers, `from_request` succeeds, and the full traversal through
`assume_interactive_receiver` and the four checks — with predicates answering
not owned / not seen except for the receiver-output identification — succeeds
end-to-end, `apply_fee(None)` returning a transaction object. -/
theorem test_vector_end_to_end :
    (UncheckedProposal.from_request testBody testQuery
      (Headers.from_vec testBody)).toOption.isSome = true
    ∧ testPipeline.isOk = true :=
  ⟨rfl, rfl⟩

/-- C8: `get_transaction_to_schedule_broadcast` on a handle still holding its
value returns the sender's original transaction and leaves the resident value
unchanged; it can be repeated any number of times, and a subsequent consuming
call (`assume_interactive_receiver`, or `check_can_broadcast` with an
accepting predicate) still succeeds. -/
theorem get_transaction_read_only (p : PdkProposalData) (n : Nat)
    (cb : List Nat → Except PayjoinError Bool) :
    UncheckedProposal.get_transaction_to_schedule_broadcast (some p) =
      (Outcome.ok p.tx, some p)
    ∧ iterateGet n (some p) = some p
    ∧ (UncheckedProposal.assume_interactive_receiver (some p)).fst = Outcome.ok p
    ∧ (cb (txSerialize p.tx) = Except.ok true →
        (UncheckedProposal.check_can_broadcast (some p) cb).fst = Outcome.ok p) := by
  refine ⟨rfl, ?_, rfl, ?_⟩
  · induction n with
    | zero => rfl
    | succ m ih =>
      simpa [iterateGet, UncheckedProposal.get_transaction_to_schedule_broadcast]
        using ih
  · intro h
    simp [UncheckedProposal.check_can_broadcast, pdkCheckCanBroadcast,
      wrapServer, h]

/-- C8 witness: on a concrete proposal, three repeated reads leave the handle
unchanged and both consuming calls still succeed. -/
theorem get_transaction_read_only_witness :
    UncheckedProposal.get_transaction_to_schedule_broadcast (some sampleData) =
      (Outcome.ok sampleData.tx, some sampleData)
    ∧ iterateGet 3 (some sampleData) = some sampleData
    ∧ (UncheckedProposal.assume_interactive_receiver (some sampleData)).fst =
        Outcome.ok sampleData
    ∧ (UncheckedProposal.check_can_broadcast (some sampleData)
        (fun _ => Except.ok true)).fst = Outcome.ok sampleData := by
  have h := get_transaction_read_only sampleData 3 (fun _ => Except.ok true)
  exact ⟨h.1, h.2.1, h.2.2.1, h.2.2.2 rfl⟩

/-- C9: for every body, `Headers::from_vec` produces a map answering exactly
the decimal byte length for `content-length`, exactly `text/plain` for
`content-type` regardless of the body's content, and `none` for every other
key. -/
theorem headers_from_vec_spec (body : List Nat) (k : String) :
    (Headers.from_vec body).get_header "content-length" =
      some (toString body.length)
    ∧ (Headers.from_vec body).get_header "content-type" = some "text/plain"
    ∧ (k ≠ "content-type" → k ≠ "content-length" →
        (Headers.from_vec body).get_header k = none) := by
  refine ⟨?_, ?_, ?_⟩
  · simp [Headers.from_vec, Headers.get_header, List.lookup]
  · simp [Headers.from_vec, Headers.get_header, List.lookup]
  · intro h1 h2
    have b1 : (k == "content-type") = false := beq_eq_false_iff_ne.mpr h1
    have b2 : (k == "content-length") = false := beq_eq_false_iff_ne.mpr h2
    simp [Headers.from_vec, Headers.get_header, List.lookup, b1, b2]

/-- C9 witness: a concrete body of three bytes and a concrete foreign key. -/
theorem headers_from_vec_spec_witness :
    (Headers.from_vec [7, 8, 9]).get_header "content-length" = some "3"
    ∧ (Headers.from_vec [7, 8, 9]).get_header "content-type" = some "text/plain"
    ∧ (Headers.from_vec [7, 8, 9]).get_header "x-custom" = none := by
  have h := headers_from_vec_spec [7, 8, 9] "x-custom"
  exact ⟨h.1, h.2.1, h.2.2 (by decide) (by decide)⟩

/-- C10: after `prepare_psbt` succeeds on a builder, the handle is emptied and
every remaining builder method — `is_output_substitution_disabled`,
`contribute_witness_input`, `contribute_non_witness_input`,
`substitute_output_address`, `apply_fee`, `try_preserving_privacy` — panics
with the `Option::unwrap` panic rather than returning a typed error. -/
theorem builder_methods_panic_after_prepare (p : PdkPayjoinProposal)
    (q : PartiallySignedTransaction) (t : TxOut) (tx : Transaction)
    (o o2 : OutPoint) (a : String) (fee : Option Nat)
    (trig : Nat × OutPoint → Bool) (cands : List (Nat × OutPoint))
    (_hsucc : (PayjoinProposal.prepare_psbt (some p) q).fst.isOk = true) :
    (PayjoinProposal.prepare_psbt (some p) q).snd = none
    ∧ (PayjoinProposal.is_output_substitution_disabled
        (PayjoinProposal.prepare_psbt (some p) q).snd).fst =
        Outcome.panicked unwrapMsg
    ∧ (PayjoinProposal.contribute_witness_input
        (PayjoinProposal.prepare_psbt (some p) q).snd t o).fst =
        Outcome.panicked unwrapMsg
    ∧ (PayjoinProposal.contribute_non_witness_input
        (PayjoinProposal.prepare_psbt (some p) q).snd tx o2).fst =
        Outcome.panicked unwrapMsg
    ∧ (PayjoinProposal.substitute_output_address
        (PayjoinProposal.prepare_psbt (some p) q).snd a).fst =
        Outcome.panicked unwrapMsg
    ∧ (PayjoinProposal.apply_fee
        (PayjoinProposal.prepare_psbt (some p) q).snd fee).fst =
        Outcome.panicked unwrapMsg
    ∧ (PayjoinProposal.try_preserving_privacy
        (PayjoinProposal.prepare_psbt (some p) q).snd trig cands).fst =
        Outcome.panicked unwrapMsg :=
  ⟨rfl, rfl, rfl, rfl, rfl, rfl, rfl⟩

/-- C10 witness: concrete builder and inputs — `prepare_psbt` succeeds, and
each subsequent builder method panics. -/
theorem builder_methods_panic_after_prepare_witness :
    (PayjoinProposal.prepare_psbt (some sampleProposal)
      ⟨sampleData.tx⟩).snd = none
    ∧ (PayjoinProposal.is_output_substitution_disabled
        (PayjoinProposal.prepare_psbt (some sampleProposal)
          ⟨sampleData.tx⟩).snd).fst = Outcome.panicked unwrapMsg
    ∧ (PayjoinProposal.contribute_witness_input
        (PayjoinProposal.prepare_psbt (some sampleProposal)
          ⟨sampleData.tx⟩).snd ⟨1000, [0, 20, 7]⟩ ⟨"cc", 1⟩).fst =
        Outcome.panicked unwrapMsg
    ∧ (PayjoinProposal.contribute_non_witness_input
        (PayjoinProposal.prepare_psbt (some sampleProposal)
          ⟨sampleData.tx⟩).snd sampleData.tx ⟨"cc", 2⟩).fst =
        Outcome.panicked unwrapMsg
    ∧ (PayjoinProposal.substitute_output_address
        (PayjoinProposal.prepare_psbt (some sampleProposal)
          ⟨sampleData.tx⟩).snd "addr").fst = Outcome.panicked unwrapMsg
    ∧ (PayjoinProposal.apply_fee
        (PayjoinProposal.prepare_psbt (some sampleProposal)
          ⟨sampleData.tx⟩).snd none).fst = Outcome.panicked unwrapMsg
    ∧ (PayjoinProposal.try_preserving_privacy
        (PayjoinProposal.prepare_psbt (some sampleProposal)
          ⟨sampleData.tx⟩).snd (fun _ => true) []).fst =
        Outcome.panicked unwrapMsg :=
  builder_methods_panic_after_prepare sampleProposal ⟨sampleData.tx⟩
    ⟨1000, [0, 20, 7]⟩ sampleData.tx ⟨"cc", 1⟩ ⟨"cc", 2⟩ "addr" none
    (fun _ => true) [] rfl

end PayjoinFfi
